import Mathlib

/-!
# Verification of the django-fobi view layer

Shallow embedding of `src/fobi/views.py` (and of
`src/fobi/contrib/plugins/form_elements/fields/slider/forms.py`).

Django collaborators (ORM querysets, the messages framework, HTTP
responses) are modelled explicitly: the database is a record of lists,
messages are accumulated in a list, and a view returns its new database
state, its messages and a `Response`.  Form validation results and
plugin-form data, which are produced by collaborator code outside the
excerpt, are passed in as parameters.
-/

namespace Fobi

/-- A message pushed onto Django's messages framework
(`messages.info` / `messages.warning` / `messages.error`). -/
inductive Message where
  | info (text : String)
  | warning (text : String)
  | error (text : String)
deriving DecidableEq, Repr

/-- The HTTP-level outcome of a view.  `http404` models a raised
`Http404`; `server_error` models an unhandled Python exception
escaping the view (HTTP 500). -/
inductive Response where
  | redirect (url : String)
  | render (template : String)
  | http404 (msg : String)
  | server_error (msg : String)
deriving DecidableEq, Repr

/-- `fobi.models.FormEntry` (fields used by the views). -/
structure FormEntry where
  id : Nat
  name : String
  slug : String
  user : Nat
  is_public : Bool
  is_cloneable : Bool
  success_page_title : String
  success_page_message : String
  action : String
deriving DecidableEq, Repr

/-- `reverse` of the `fobi.form_entry_submitted` URL. -/
def form_entry_submitted_url (slug : String) : String :=
  "fobi.form_entry_submitted/" ++ slug

/-- `reverse` of the `fobi.edit_form_entry` URL. -/
def edit_form_entry_url (form_entry_id : Nat) : String :=
  "fobi.edit_form_entry/" ++ toString form_entry_id

/-- `view_form_entry` (views.py 1984-2111), restricted to the control
flow that decides messages and the response.  The callback stages
(`fire_form_callbacks`, `submit_plugin_form_data`) transform the bound
form object only, so they are invisible at this level.  The handler
runner's output is passed in as `(handler_responses, handler_errors)`:
the model is parametric in whatever `run_form_handlers` returns. -/
def view_form_entry (form_entry : FormEntry) (is_post : Bool)
    (form_valid : Bool) (handler_responses : List String)
    (handler_errors : List String) (template : String) :
    List Message × Response :=
  if is_post then
    if form_valid then
      (handler_errors.map
          (fun e => Message.warning ("Error occurred: " ++ e ++ "."))
        ++ [Message.info
              ("Form " ++ form_entry.name ++ " was submitted successfully.")],
       Response.redirect (form_entry_submitted_url form_entry.slug))
    else
      ([], Response.render template)
  else
    ([], Response.render template)

/-- `fobi.models.FormElementEntry`.  `user` and `position` are set by
the add view; the import view leaves `user` at its default, modelled
as `0`. -/
structure FormElementEntry where
  id : Nat
  form_entry : Nat
  plugin_uid : String
  plugin_data : String
  position : Int
  user : Nat
deriving DecidableEq, Repr

/-- `fobi.models.FormHandlerEntry`. -/
structure FormHandlerEntry where
  id : Nat
  form_entry : Nat
  plugin_uid : String
  plugin_data : String
  user : Nat
deriving DecidableEq, Repr

/-- `fobi.models.FormWizardEntry` (fields used by the views). -/
structure FormWizardEntry where
  id : Nat
  name : String
  slug : String
  user : Nat
deriving DecidableEq, Repr

/-- `fobi.models.FormWizardHandlerEntry`. -/
structure FormWizardHandlerEntry where
  id : Nat
  form_wizard_entry : Nat
  plugin_uid : String
  plugin_data : String
  user : Nat
deriving DecidableEq, Repr

/-- `fobi.models.FormWizardFormEntry`.  Its `position` column is
nullable (`objects.create` in `add_form_wizard_form_entry` first saves
the row without a position, and the following `Max` aggregate ignores
the null), hence `Option Int`. -/
structure FormWizardFormEntry where
  id : Nat
  form_wizard_entry : Nat
  form_entry : Nat
  position : Option Int
deriving DecidableEq, Repr

/-- The relational store the views read and write. -/
structure DB where
  form_entries : List FormEntry
  form_element_entries : List FormElementEntry
  form_handler_entries : List FormHandlerEntry
  form_wizard_entries : List FormWizardEntry
  form_wizard_handler_entries : List FormWizardHandlerEntry
  form_wizard_form_entries : List FormWizardFormEntry
deriving DecidableEq, Repr

/-- A registered form element plugin class, as the add/edit views see
it: its uid and whether `get_form()` returns a configuration form. -/
structure ElementPlugin where
  uid : String
  name : String
  has_form : Bool
deriving DecidableEq, Repr

/-- A registered form handler (or form wizard handler) plugin class:
uid, display name, the `allow_multiple` class flag, and whether
`get_form()` returns a configuration form. -/
structure HandlerPlugin where
  uid : String
  name : String
  allow_multiple : Bool
  has_form : Bool
deriving DecidableEq, Repr

/-- `FormEntry._default_manager.get(pk=...)` (no user filter). -/
def find_form_entry (db : DB) (pk : Nat) : Option FormEntry :=
  db.form_entries.find? (fun fe => fe.id == pk)

/-- `form_element_plugin_registry.get(uid)`. -/
def element_registry_get (reg : List ElementPlugin) (uid : String) :
    Option ElementPlugin :=
  reg.find? (fun p => p.uid == uid)

/-- `form_handler_plugin_registry.get(uid)` (also models the wizard
handler registry, which has the same shape). -/
def handler_registry_get (reg : List HandlerPlugin) (uid : String) :
    Option HandlerPlugin :=
  reg.find? (fun p => p.uid == uid)

/-- One step of a form wizard, as seen by `render_done`: its form key
(the slug of the step's form entry) and whether the stored step data
still validates (`form_obj.is_valid()`). -/
structure WizardStep where
  key : String
  valid : Bool
deriving DecidableEq, Repr

/-- Observable events of `FormWizardView.render_done` / `done`. -/
inductive WizardEvent where
  | submit_plugin_data (key : String)
  | run_wizard_handlers
  | storage_reset
deriving DecidableEq, Repr

/-- `reverse` of the `fobi.form_wizard_entry_submitted` URL. -/
def form_wizard_entry_submitted_url (slug : String) : String :=
  "fobi.form_wizard_entry_submitted/" ++ slug

/-- `FormWizardView.done` (views.py 1503-1527): runs all wizard
handlers once and returns a redirect to the wizard-submitted page. -/
def wizard_done (wizard_slug : String) : List WizardEvent × Response :=
  ([WizardEvent.run_wizard_handlers],
   Response.redirect (form_wizard_entry_submitted_url wizard_slug))

/-- `FormWizardView.render_done` (views.py 1461-1501).  Walks the form
list re-validating each step's stored data: on the first failure it
returns `render_revalidation_failure` for that step (no further
events); if every step re-validates it fires `submit_plugin_form_data`
per step, calls `done` (which runs the wizard handlers) and resets the
storage after `done` returns. -/
def render_done (wizard_slug : String) :
    List WizardStep → List WizardEvent × Response
  | [] =>
    let d := wizard_done wizard_slug
    (d.1 ++ [WizardEvent.storage_reset], d.2)
  | s :: rest =>
    if s.valid then
      let r := render_done wizard_slug rest
      (WizardEvent.submit_plugin_data s.key :: r.1, r.2)
    else
      ([], Response.render ("revalidation_failure:" ++ s.key))

/-- Key of the first step whose stored data fails re-validation. -/
def first_invalid_key (steps : List WizardStep) : Option String :=
  (steps.find? (fun s => !s.valid)).map (fun s => s.key)

/-- `reverse` of the `fobi.edit_form_wizard_entry` URL. -/
def edit_form_wizard_entry_url (form_wizard_entry_id : Nat) : String :=
  "fobi.edit_form_wizard_entry/" ++ toString form_wizard_entry_id

/-- `FormElementEntry.objects.filter(form_entry=form_entry)`. -/
def element_siblings (db : DB) (form_entry_id : Nat) :
    List FormElementEntry :=
  db.form_element_entries.filter (fun e => e.form_entry == form_entry_id)

/-- Position handling of `add_form_element_entry` (views.py 675-687):
`position = 1`, then `aggregate(Max(position))`; a `None` aggregate
raises `TypeError` on `None + 1`, which is swallowed and the default
`1` kept, otherwise `position = max + 1`. -/
def next_element_position (db : DB) (form_entry_id : Nat) : Int :=
  match ((element_siblings db form_entry_id).map
      (fun e => e.position)).max? with
  | none => 1
  | some m => m + 1

/-- `add_form_element_entry` (views.py 603-725).  The parent form
entry is fetched by pk only (the source has no owner filter here).
`is_post`/`form_valid` stand for `request.method == "POST"` and the
plugin configuration form validating; `posted_plugin_data` is
`form.get_plugin_data(...)` of the validated form. -/
def add_form_element_entry (db : DB) (reg : List ElementPlugin)
    (allowed_uids : List String) (req_user : Nat)
    (is_post form_valid : Bool) (posted_plugin_data : String)
    (new_id : Nat) (form_entry_id : Nat) (plugin_uid : String) :
    DB × Response :=
  match find_form_entry db form_entry_id with
  | none => (db, Response.http404 "Form entry not found.")
  | some _form_entry =>
    if plugin_uid ∈ allowed_uids then
      match element_registry_get reg plugin_uid with
      | none => (db, Response.server_error "form element plugin not registered")
      | some plugin =>
        if plugin.has_form = false ∨ (is_post = true ∧ form_valid = true) then
          let data := if plugin.has_form then posted_plugin_data else ""
          let obj : FormElementEntry :=
            { id := new_id, form_entry := form_entry_id,
              plugin_uid := plugin_uid, plugin_data := data,
              position := next_element_position db form_entry_id,
              user := req_user }
          ({db with form_element_entries := db.form_element_entries ++ [obj]},
           Response.redirect
             (edit_form_entry_url form_entry_id ++ "?active_tab=tab-form-elements"))
        else
          (db, Response.render "add_form_element_entry_template")
    else
      (db, Response.http404
        "Plugin does not exist or you are not allowed to use this plugin!")

/-- `add_form_handler_entry` (views.py 862-977).  The parent form
entry is fetched by pk only (no owner filter in the source).  A
handler plugin with `allow_multiple = False` already used on this form
entry is rejected with `Http404` before anything is saved. -/
def add_form_handler_entry (db : DB) (reg : List HandlerPlugin)
    (allowed_uids : List String) (req_user : Nat)
    (is_post form_valid : Bool) (posted_plugin_data : String)
    (new_id : Nat) (form_entry_id : Nat) (plugin_uid : String) :
    DB × Response :=
  match find_form_entry db form_entry_id with
  | none => (db, Response.http404 "Form entry not found.")
  | some _form_entry =>
    if plugin_uid ∈ allowed_uids then
      match handler_registry_get reg plugin_uid with
      | none => (db, Response.server_error "form handler plugin not registered")
      | some plugin =>
        if plugin.allow_multiple = false
            ∧ 0 < (db.form_handler_entries.filter
                (fun e => e.form_entry == form_entry_id
                  && e.plugin_uid == plugin.uid)).length then
          (db, Response.http404
            ("The " ++ plugin.name ++ " plugin can be used only once in a form."))
        else
          if plugin.has_form = false ∨ (is_post = true ∧ form_valid = true) then
            let data := if plugin.has_form then posted_plugin_data else ""
            let obj : FormHandlerEntry :=
              { id := new_id, form_entry := form_entry_id,
                plugin_uid := plugin_uid, plugin_data := data,
                user := req_user }
            ({db with form_handler_entries := db.form_handler_entries ++ [obj]},
             Response.redirect
               (edit_form_entry_url form_entry_id ++ "?active_tab=tab-form-handlers"))
          else
            (db, Response.render "add_form_handler_entry_template")
    else
      (db, Response.http404
        "Plugin does not exist or you are not allowed to use this plugin!")

/-- `add_form_wizard_handler_entry` (views.py 1730-1851).  Same shape
as `add_form_handler_entry`, against the wizard tables; the parent
wizard entry is fetched by pk only (no owner filter in the source). -/
def add_form_wizard_handler_entry (db : DB) (reg : List HandlerPlugin)
    (allowed_uids : List String) (req_user : Nat)
    (is_post form_valid : Bool) (posted_plugin_data : String)
    (new_id : Nat) (form_wizard_entry_id : Nat) (plugin_uid : String) :
    DB × Response :=
  match db.form_wizard_entries.find? (fun w => w.id == form_wizard_entry_id) with
  | none => (db, Response.http404 "Form wizard entry not found.")
  | some _form_wizard_entry =>
    if plugin_uid ∈ allowed_uids then
      match handler_registry_get reg plugin_uid with
      | none =>
        (db, Response.server_error "form wizard handler plugin not registered")
      | some plugin =>
        if plugin.allow_multiple = false
            ∧ 0 < (db.form_wizard_handler_entries.filter
                (fun e => e.form_wizard_entry == form_wizard_entry_id
                  && e.plugin_uid == plugin.uid)).length then
          (db, Response.http404
            ("The " ++ plugin.name ++ " plugin can be used only once in a form."))
        else
          if plugin.has_form = false ∨ (is_post = true ∧ form_valid = true) then
            let data := if plugin.has_form then posted_plugin_data else ""
            let obj : FormWizardHandlerEntry :=
              { id := new_id, form_wizard_entry := form_wizard_entry_id,
                plugin_uid := plugin_uid, plugin_data := data,
                user := req_user }
            ({db with form_wizard_handler_entries :=
                db.form_wizard_handler_entries ++ [obj]},
             Response.redirect
               (edit_form_wizard_entry_url form_wizard_entry_id
                 ++ "?active_tab=tab-form-handlers"))
          else
            (db, Response.render "add_form_wizard_handler_entry_template")
    else
      (db, Response.http404
        "Plugin does not exist or you are not allowed to use this plugin!")

/-- A JSON-compatible scalar value of the import document's top-level
mapping. -/
inductive JVal where
  | s (v : String)
  | b (v : Bool)
  | null
deriving DecidableEq, Repr

/-- One entry of the `form_elements` list of an import document; each
key may be absent (`.get('plugin_uid', None)` is used by the view). -/
structure ElementData where
  plugin_uid : Option String
  position : Option Int
  plugin_data : Option String
deriving DecidableEq, Repr

/-- One entry of the `form_handlers` list of an import document. -/
structure HandlerData where
  plugin_uid : Option String
  plugin_data : Option String
deriving DecidableEq, Repr

/-- The parsed JSON import document.  `form_data` is the top-level
mapping after the view's `pop('form_elements')` / `pop('form_handlers')`,
which this record splits off into the two list fields. -/
structure ImportDoc where
  form_data : List (String × JVal)
  form_elements : List ElementData
  form_handlers : List HandlerData
deriving DecidableEq, Repr

/-- An unhandled Python exception escaping `import_form_entry`. -/
inductive PyError where
  | nameError (var : String)
  | attributeError (msg : String)
deriving DecidableEq, Repr

/-- What a successful run of `import_form_entry`'s POST branch
produces: the saved form entry, its saved element and handler
entries, the recorded messages and the response. -/
structure ImportResult where
  entry : FormEntry
  elements : List FormElementEntry
  handlers : List FormHandlerEntry
  messages : List Message
  response : Response
deriving DecidableEq, Repr

/-- `form_data_keys_whitelist` (views.py 2254-2263). -/
def form_data_keys_whitelist : List String :=
  ["name", "slug", "is_public", "is_cloneable",
   "success_page_title", "success_page_message", "action"]

/-- The whitelist loop of `import_form_entry` (views.py 2266-2268):
every top-level key outside the whitelist is popped.  (The source
iterates `form_data.keys()` — a Python 2 list copy — so popping while
iterating is sound there.) -/
def sanitize_form_data (d : List (String × JVal)) : List (String × JVal) :=
  d.filter (fun kv => form_data_keys_whitelist.contains kv.1)

/-- A string-typed key of the document mapping, with the model
default used when the key is absent. -/
def lookup_str (d : List (String × JVal)) (k : String) (dflt : String) :
    String :=
  match d.find? (fun kv => kv.1 == k) with
  | some (_, JVal.s v) => v
  | _ => dflt

/-- A bool-typed key of the document mapping, with the model default
used when the key is absent. -/
def lookup_bool (d : List (String × JVal)) (k : String) (dflt : Bool) :
    Bool :=
  match d.find? (fun kv => kv.1 == k) with
  | some (_, JVal.b v) => v
  | _ => dflt

/-- `FormEntry(**form_data)` with `form_data['user'] = request.user`
(views.py 2271-2273).  Model field defaults (used when a whitelisted
key is absent; `fobi/models.py` is not part of the excerpt) are the
empty string and `False`. -/
def form_entry_from_data (d : List (String × JVal)) (user : Nat)
    (new_id : Nat) : FormEntry :=
  { id := new_id,
    name := lookup_str d "name" "",
    slug := lookup_str d "slug" "",
    user := user,
    is_public := lookup_bool d "is_public" false,
    is_cloneable := lookup_bool d "is_cloneable" false,
    success_page_title := lookup_str d "success_page_title" "",
    success_page_message := lookup_str d "success_page_message" "",
    action := lookup_str d "action" "" }

/-- Truthiness of
`form_element_plugin_registry._registry.get(data.get('plugin_uid', None), None)`. -/
def element_data_registered (reg : List String) (ed : ElementData) : Bool :=
  match ed.plugin_uid with
  | some uid => reg.contains uid
  | none => false

/-- Truthiness of the handler registry lookup on a handler data
mapping. -/
def handler_data_registered (reg : List String) (hd : HandlerData) : Bool :=
  match hd.plugin_uid with
  | some uid => reg.contains uid
  | none => false

/-- `FormElementEntry(**form_element_data)` with
`form_element.form_entry = form_entry` (views.py 2284-2286).  The pk
is autoassigned and `user` is never set by the import; both modelled
as `0`. -/
def element_entry_of_data (form_entry_id : Nat) (ed : ElementData) :
    FormElementEntry :=
  { id := 0, form_entry := form_entry_id,
    plugin_uid := ed.plugin_uid.getD "",
    plugin_data := ed.plugin_data.getD "",
    position := ed.position.getD 0, user := 0 }

/-- `FormHandlerEntry(**form_handler_data)` with
`form_handler.form_entry = form_entry` (views.py 2305-2307). -/
def handler_entry_of_data (form_entry_id : Nat) (hd : HandlerData) :
    FormHandlerEntry :=
  { id := 0, form_entry := form_entry_id,
    plugin_uid := hd.plugin_uid.getD "",
    plugin_data := hd.plugin_data.getD "", user := 0 }

/-- `messages.warning(..., 'Plugin {0} is missing in the system.')`. -/
def missing_plugin_warning (uid : String) : Message :=
  Message.warning ("Plugin " ++ uid ++ " is missing in the system.")

/-- `messages.warning(..., 'Some essential plugin data missing ...')`. -/
def essential_data_warning : Message :=
  Message.warning "Some essential plugin data missing in the JSON import."

/-- The warning the element loop records for a skipped entry. -/
def warn_of (ed : ElementData) : Message :=
  match ed.plugin_uid with
  | some uid => missing_plugin_warning uid
  | none => essential_data_warning

/-- The element import loop (views.py 2281-2299): an entry whose
plugin uid is registered is saved; otherwise a warning names the
missing plugin (or reports missing essential data when the uid key is
absent) and the loop continues. -/
def import_form_elements (reg : List String) (form_entry_id : Nat) :
    List ElementData → List FormElementEntry × List Message
  | [] => ([], [])
  | ed :: rest =>
    let r := import_form_elements reg form_entry_id rest
    if element_data_registered reg ed then
      (element_entry_of_data form_entry_id ed :: r.1, r.2)
    else
      (r.1, warn_of ed :: r.2)

/-- The handler import loop (views.py 2302-2320), faithful to the
source's slip: the warning branch reads `form_handler.get(...)` — the
model instance saved on a *previous* iteration — instead of
`form_handler_data.get(...)`.  An unregistered handler uid therefore
raises `NameError` (no handler saved yet in this loop) or
`AttributeError` (a `FormHandlerEntry` instance has no `get`), never
the intended warning.  `last_saved` carries the Python variable
`form_handler`. -/
def import_form_handlers (reg : List String) (form_entry_id : Nat) :
    List HandlerData → Option FormHandlerEntry →
    Except PyError (List FormHandlerEntry × List Message)
  | [], _ => Except.ok ([], [])
  | hd :: rest, last_saved =>
    if handler_data_registered reg hd then
      let e := handler_entry_of_data form_entry_id hd
      match import_form_handlers reg form_entry_id rest (some e) with
      | Except.ok r => Except.ok (e :: r.1, r.2)
      | Except.error err => Except.error err
    else
      match last_saved with
      | none => Except.error (PyError.nameError "form_handler")
      | some _ =>
        Except.error
          (PyError.attributeError "FormHandlerEntry object has no attribute get")

/-- The form entry the import saves: built from the sanitized
mapping for the requesting user, name suffixed with the import
timestamp (views.py 2271-2278). -/
def imported_entry (doc : ImportDoc) (user : Nat) (new_id : Nat)
    (ts : String) : FormEntry :=
  let fe0 := form_entry_from_data (sanitize_form_data doc.form_data) user new_id
  {fe0 with name := fe0.name ++ " (imported on " ++ ts ++ ")"}

/-- The POST-with-valid-upload branch of `import_form_entry`
(views.py 2235-2328): sanitize the top-level mapping, build the form
entry for the requesting user, suffix the name with the import
timestamp, save it, run the element and handler import loops, record
the success message and redirect to the edit page. -/
def import_form_entry_post_valid (reg_elements reg_handlers : List String)
    (user : Nat) (ts : String) (new_id : Nat) (doc : ImportDoc) :
    Except PyError ImportResult :=
  let fe := imported_entry doc user new_id ts
  let er := import_form_elements reg_elements new_id doc.form_elements
  match import_form_handlers reg_handlers new_id doc.form_handlers none with
  | Except.error err => Except.error err
  | Except.ok hr =>
    Except.ok
      { entry := fe, elements := er.1, handlers := hr.1,
        messages := er.2 ++ hr.2
          ++ [Message.info "The form was imported successfully."],
        response := Response.redirect (edit_form_entry_url new_id) }

/-- One element of the exported `form_elements` list
(views.py 2198-2205). -/
def export_element (e : FormElementEntry) : ElementData :=
  { plugin_uid := some e.plugin_uid, position := some e.position,
    plugin_data := some e.plugin_data }

/-- One element of the exported `form_handlers` list
(views.py 2207-2213). -/
def export_handler (h : FormHandlerEntry) : HandlerData :=
  { plugin_uid := some h.plugin_uid, plugin_data := some h.plugin_data }

/-- The document `export_form_entry` serializes (views.py 2182-2215).
`is_public` and `is_cloneable` are written as literal `False`,
whatever the entry's stored values. -/
def export_form_entry (fe : FormEntry) (elems : List FormElementEntry)
    (handlers : List FormHandlerEntry) : ImportDoc :=
  { form_data :=
      [("name", JVal.s fe.name), ("slug", JVal.s fe.slug),
       ("is_public", JVal.b false), ("is_cloneable", JVal.b false),
       ("success_page_title", JVal.s fe.success_page_title),
       ("success_page_message", JVal.s fe.success_page_message),
       ("action", JVal.s fe.action)],
    form_elements := elems.map export_element,
    form_handlers := handlers.map export_handler }

/-- The `form_entry__user__pk=request.user.pk` join filter on a form
element entry. -/
def element_owner_matches (db : DB) (e : FormElementEntry) (u : Nat) : Bool :=
  match find_form_entry db e.form_entry with
  | some fe => fe.user == u
  | none => false

/-- The `form_entry__user__pk=request.user.pk` join filter on a form
handler entry. -/
def handler_owner_matches (db : DB) (e : FormHandlerEntry) (u : Nat) : Bool :=
  match find_form_entry db e.form_entry with
  | some fe => fe.user == u
  | none => false

/-- `edit_form_element_entry` (views.py 734-830).  The entry is
fetched with `form_entry__user__pk=request.user.pk`: only the owner of
the parent form entry can reach it. -/
def edit_form_element_entry (db : DB) (reg : List ElementPlugin)
    (req_user : Nat) (entry_id : Nat) (is_post form_valid : Bool)
    (posted_plugin_data : String) : DB × Response :=
  match db.form_element_entries.find?
      (fun e => e.id == entry_id && element_owner_matches db e req_user) with
  | none => (db, Response.http404 "Form element entry not found.")
  | some obj =>
    match element_registry_get reg obj.plugin_uid with
    | none => (db, Response.server_error "form element plugin not registered")
    | some plugin =>
      if plugin.has_form = false then
        (db, Response.redirect (edit_form_entry_url obj.form_entry))
      else if is_post = true ∧ form_valid = true then
        let updated := db.form_element_entries.map
          (fun e => if e.id == entry_id
            then {e with plugin_data := posted_plugin_data} else e)
        ({db with form_element_entries := updated},
         Response.redirect (edit_form_entry_url obj.form_entry))
      else
        (db, Response.render "edit_form_element_entry_template")

/-- `edit_form_handler_entry` (views.py 986-1070).  Faithful to the
source: the entry is fetched by pk only — there is no
`form_entry__user` filter in this view. -/
def edit_form_handler_entry (db : DB) (reg : List HandlerPlugin)
    (req_user : Nat) (entry_id : Nat) (is_post form_valid : Bool)
    (posted_plugin_data : String) : DB × Response :=
  match db.form_handler_entries.find? (fun e => e.id == entry_id) with
  | none => (db, Response.http404 "Form handler entry not found.")
  | some obj =>
    match handler_registry_get reg obj.plugin_uid with
    | none => (db, Response.server_error "form handler plugin not registered")
    | some plugin =>
      if plugin.has_form = false then
        (db, Response.redirect (edit_form_entry_url obj.form_entry))
      else if is_post = true ∧ form_valid = true then
        let updated := db.form_handler_entries.map
          (fun e => if e.id == entry_id
            then {e with plugin_data := posted_plugin_data} else e)
        ({db with form_handler_entries := updated},
         Response.redirect (edit_form_entry_url obj.form_entry))
      else
        (db, Response.render "edit_form_handler_entry_template")

/-- `delete_form_element_entry` via `_delete_plugin_entry`
(views.py 128-165, 839-853): the entry is fetched with
`form_entry__user__pk=request.user.pk`, the plugin cleanup hook
`_delete_plugin_data` runs out of band, and the row is deleted. -/
def delete_form_element_entry (db : DB) (req_user : Nat) (entry_id : Nat) :
    DB × Response :=
  match db.form_element_entries.find?
      (fun e => e.id == entry_id && element_owner_matches db e req_user) with
  | none => (db, Response.http404 "Form element entry not found.")
  | some obj =>
    ({db with form_element_entries :=
        db.form_element_entries.filter (fun e => !(e.id == obj.id))},
     Response.redirect
       (edit_form_entry_url obj.form_entry ++ "?active_tab=tab-form-elements"))

/-- `delete_form_handler_entry` via `_delete_plugin_entry`
(views.py 128-165, 1079-1093): owner-filtered fetch, then delete. -/
def delete_form_handler_entry (db : DB) (req_user : Nat) (entry_id : Nat) :
    DB × Response :=
  match db.form_handler_entries.find?
      (fun e => e.id == entry_id && handler_owner_matches db e req_user) with
  | none => (db, Response.http404 "Form handler entry not found.")
  | some obj =>
    ({db with form_handler_entries :=
        db.form_handler_entries.filter (fun e => !(e.id == obj.id))},
     Response.redirect
       (edit_form_entry_url obj.form_entry ++ "?active_tab=tab-form-handlers"))

/-- `FormWizardFormEntry.objects.filter(form_wizard_entry_id=...)`. -/
def wizard_form_siblings (db : DB) (form_wizard_entry_id : Nat) :
    List FormWizardFormEntry :=
  db.form_wizard_form_entries.filter
    (fun e => e.form_wizard_entry == form_wizard_entry_id)

/-- The position `add_form_wizard_form_entry` assigns: the SQL `Max`
aggregate ignores null positions (in particular the just-created row),
a `None` aggregate is absorbed by the `TypeError` guard and the
default `1` kept, otherwise `max + 1`. -/
def next_wizard_form_position (db : DB) (form_wizard_entry_id : Nat) : Int :=
  match ((wizard_form_siblings db form_wizard_entry_id).filterMap
      (fun e => e.position)).max? with
  | none => 1
  | some m => m + 1

/-- `add_form_wizard_form_entry` (views.py 1582-1673).  Both parents
are fetched with a `user=request.user` filter.  `objects.create`
first saves the row without a position (an `IntegrityError` on the
unique-together pair is reported and nothing added); the `Max`
aggregate then runs over the table including that null-position row,
and the final `obj.save()` stores the computed position on the row
just created (its autoincremented pk is fresh). -/
def add_form_wizard_form_entry (db : DB) (req_user : Nat)
    (form_wizard_entry_id : Nat) (form_entry_id : Nat) (new_id : Nat) :
    DB × Response :=
  match db.form_wizard_entries.find?
      (fun w => w.id == form_wizard_entry_id && w.user == req_user) with
  | none => (db, Response.http404 "Form wizard entry not found.")
  | some _fw =>
    match db.form_entries.find?
        (fun fe => fe.id == form_entry_id && fe.user == req_user) with
    | none => (db, Response.http404 "Form entry not found.")
    | some _fe =>
      if ∃ e ∈ db.form_wizard_form_entries,
          e.form_wizard_entry = form_wizard_entry_id
            ∧ e.form_entry = form_entry_id then
        (db, Response.redirect
          (edit_form_wizard_entry_url form_wizard_entry_id
            ++ "?active_tab=tab-form-elements"))
      else
        let created : FormWizardFormEntry :=
          { id := new_id, form_wizard_entry := form_wizard_entry_id,
            form_entry := form_entry_id, position := none }
        let db1 :=
          {db with form_wizard_form_entries :=
            db.form_wizard_form_entries ++ [created]}
        let pos := next_wizard_form_position db1 form_wizard_entry_id
        ({db with form_wizard_form_entries :=
            db.form_wizard_form_entries ++ [{created with position := some pos}]},
         Response.redirect
           (edit_form_wizard_entry_url form_wizard_entry_id
             ++ "?active_tab=tab-form-elements"))

/-- Modelled from the spec: the slider plugin's constants module is
not part of the excerpt; the handle choice `triangle` is modelled as
the string naming it (only its identity matters to `clean`). -/
def SLIDER_HANDLE_TRIANGLE : String := "triangle"

/-- Modelled from the spec: the handle choice `custom`. -/
def SLIDER_HANDLE_CUSTOM : String := "custom"

/-- Modelled from the spec: the endpoint-style choice
`labeled_ticks`. -/
def SLIDER_SHOW_ENDPOINTS_AS_LABELED_TICKS : String := "labeled_ticks"

/-- Modelled from the spec: the endpoint-style choice `ticks`. -/
def SLIDER_SHOW_ENDPOINTS_AS_TICKS : String := "ticks"

/-- The per-field-cleaned values `SliderInputForm.clean` reads from
`cleaned_data` (slider/forms.py 190-195); the fields not involved in
cross-field validation are omitted.  `initial` is an integer (the
claim quantifies over inputs passing the per-field validators with
`initial` supplied). -/
structure SliderCleanedData where
  min_value : Int
  max_value : Int
  step : Int
  initial : Int
  show_endpoints_as : String
  handle : String
deriving DecidableEq, Repr

/-- `SliderInputForm.clean` (slider/forms.py 186-231): the validation
errors added via `self.add_error`, as (field, message) pairs, in
source order. -/
def SliderInputForm_clean (d : SliderCleanedData) : List (String × String) :=
  (if d.max_value < d.min_value then
    [("max_value", "`max_value` should be > than `min_value`.")] else [])
  ++ (if d.step > d.max_value - d.min_value then
    [("step", "`step` should be > than `max_value` - `min_value`.")] else [])
  ++ (if d.max_value < d.initial then
    [("initial", "`max_value` should be >= than `initial`.")] else [])
  ++ (if d.min_value > d.initial then
    [("min_value", "`initial` should be >= than `min_value`.")] else [])
  ++ (if (d.handle = SLIDER_HANDLE_TRIANGLE ∨ d.handle = SLIDER_HANDLE_CUSTOM)
        ∧ (d.show_endpoints_as = SLIDER_SHOW_ENDPOINTS_AS_LABELED_TICKS
          ∨ d.show_endpoints_as = SLIDER_SHOW_ENDPOINTS_AS_TICKS) then
    [("handle",
      "You are not allowed to use Triangle or Custom handles with ticks enabled.")]
    else [])

/-- The form entry used by the position witness. -/
def contact_entry : FormEntry :=
  { id := 1, name := "contact", slug := "contact", user := 1,
    is_public := false, is_cloneable := false, success_page_title := "",
    success_page_message := "", action := "" }

/-- An existing element entry at position 3 on form entry 1. -/
def contact_element : FormElementEntry :=
  { id := 5, form_entry := 1, plugin_uid := "text", plugin_data := "",
    position := 3, user := 1 }

/-- The wizard entry used by the position witness. -/
def contact_wizard : FormWizardEntry :=
  { id := 2, name := "wiz", slug := "wiz", user := 1 }

/-- Concrete store for the position witness: form entry 1 (owned by
user 1) with one element entry at position 3; wizard entry 2 (owned by
user 1) with no wizard form entries yet. -/
def position_db : DB :=
  { form_entries := [contact_entry],
    form_element_entries := [contact_element],
    form_handler_entries := [],
    form_wizard_entries := [contact_wizard],
    form_wizard_handler_entries := [],
    form_wizard_form_entries := [] }

/-- A non-configurable text element plugin. -/
def text_plugin : ElementPlugin :=
  { uid := "text", name := "Text", has_form := false }

/-- A mail handler plugin with `allow_multiple = false`. -/
def unique_mail_plugin : HandlerPlugin :=
  { uid := "db_save", name := "DB save", allow_multiple := false,
    has_form := true }

/-- The `db_save` handler entry already on form entry 1. -/
def existing_db_save_entry : FormHandlerEntry :=
  { id := 11, form_entry := 1, plugin_uid := "db_save", plugin_data := "",
    user := 1 }

/-- The `db_save` wizard handler entry already on wizard entry 2. -/
def existing_db_save_wizard_entry : FormWizardHandlerEntry :=
  { id := 12, form_wizard_entry := 2, plugin_uid := "db_save",
    plugin_data := "", user := 1 }

/-- Store for the allow-multiple witness: form entry 1 and wizard
entry 2 each already carry a `db_save` handler entry. -/
def allow_multiple_db : DB :=
  { form_entries := [contact_entry],
    form_element_entries := [],
    form_handler_entries := [existing_db_save_entry],
    form_wizard_entries := [contact_wizard],
    form_wizard_handler_entries := [existing_db_save_wizard_entry],
    form_wizard_form_entries := [] }

/-- The mail handler entry on form entry 1, with data `"old"`. -/
def mail_handler_entry : FormHandlerEntry :=
  { id := 10, form_entry := 1, plugin_uid := "mail", plugin_data := "old",
    user := 1 }

/-- Store for the ownership claims: form entry 1 is owned by user 1
and carries handler entry 10 (plugin `mail`) and element entry 5. -/
def nonowner_db : DB :=
  { form_entries := [contact_entry],
    form_element_entries := [contact_element],
    form_handler_entries := [mail_handler_entry],
    form_wizard_entries := [],
    form_wizard_handler_entries := [],
    form_wizard_form_entries := [] }

/-- A configurable mail handler plugin. -/
def mail_plugin : HandlerPlugin :=
  { uid := "mail", name := "Mail", allow_multiple := true, has_form := true }

/-- Import document whose single handler references an unregistered
plugin uid. -/
def broken_handler_doc : ImportDoc :=
  { form_data := [("name", JVal.s "contact")],
    form_elements := [],
    form_handlers := [{ plugin_uid := some "ghost", plugin_data := some "" }] }

/-- Import document whose single element references an unregistered
plugin uid. -/
def broken_element_doc : ImportDoc :=
  { form_data := [("name", JVal.s "contact")],
    form_elements :=
      [{ plugin_uid := some "ghost", position := some 1,
         plugin_data := some "" }],
    form_handlers := [] }

/-- The entry `import_form_entry` builds from `broken_element_doc`
for user 3 at timestamp `T` with pk 1. -/
def broken_element_doc_entry : FormEntry :=
  { id := 1, name := "contact (imported on T)", slug := "", user := 3,
    is_public := false, is_cloneable := false, success_page_title := "",
    success_page_message := "", action := "" }

/-- Three-element import document for the C6 witness: `ghost` is the
only unregistered element plugin uid. -/
def one_missing_doc : ImportDoc :=
  { form_data := [("name", JVal.s "contact")],
    form_elements :=
      [{ plugin_uid := some "text", position := some 1,
         plugin_data := some "a" },
       { plugin_uid := some "ghost", position := some 2,
         plugin_data := some "b" },
       { plugin_uid := some "email", position := some 3,
         plugin_data := some "c" }],
    form_handlers := [] }

/-- A public form entry, for the round-trip counterexample. -/
def public_entry : FormEntry :=
  { id := 7, name := "pub", slug := "pub", user := 3, is_public := true,
    is_cloneable := false, success_page_title := "t",
    success_page_message := "m", action := "a" }

/-- What the round trip of `public_entry` actually produces. -/
def public_roundtrip_entry : FormEntry :=
  { id := 7, name := "pub (imported on T)", slug := "pub", user := 3,
    is_public := false, is_cloneable := false, success_page_title := "t",
    success_page_message := "m", action := "a" }

/-- Original form entry for the round-trip witness. -/
def rt_entry : FormEntry :=
  { id := 1, name := "Contact", slug := "contact", user := 3,
    is_public := false, is_cloneable := false, success_page_title := "ok",
    success_page_message := "done", action := "" }

/-- First element of the round-trip witness. -/
def rt_elem1 : FormElementEntry :=
  { id := 5, form_entry := 1, plugin_uid := "text", plugin_data := "n",
    position := 1, user := 3 }

/-- Second element of the round-trip witness. -/
def rt_elem2 : FormElementEntry :=
  { id := 6, form_entry := 1, plugin_uid := "email", plugin_data := "e",
    position := 2, user := 3 }

/-- Handler of the round-trip witness. -/
def rt_handler : FormHandlerEntry :=
  { id := 9, form_entry := 1, plugin_uid := "db_store", plugin_data := "",
    user := 3 }

/-- An import document carrying a non-whitelisted top-level key. -/
def junk_doc : ImportDoc :=
  { form_data := [("name", JVal.s "n"), ("is_public", JVal.b true),
      ("evil", JVal.s "x")],
    form_elements := [], form_handlers := [] }

/-- The same document without the junk key. -/
def clean_doc : ImportDoc :=
  { form_data := [("name", JVal.s "n"), ("is_public", JVal.b true)],
    form_elements := [], form_handlers := [] }

end Fobi

namespace Fobi

/-- C1: For every valid POST submission to `view_form_entry`, whatever
the handler errors list contains, each error is surfaced as a
non-fatal warning message, a success message is recorded, and the view
returns a redirect to the form-submitted page; a non-empty errors list
never aborts the submission. -/
theorem view_form_entry_handler_errors_non_fatal
    (fe : FormEntry) (rs errs : List String) (tmpl : String) :
    (view_form_entry fe true true rs errs tmpl).2
        = Response.redirect (form_entry_submitted_url fe.slug)
    ∧ (∀ e ∈ errs,
        Message.warning ("Error occurred: " ++ e ++ ".")
          ∈ (view_form_entry fe true true rs errs tmpl).1)
    ∧ Message.info ("Form " ++ fe.name ++ " was submitted successfully.")
        ∈ (view_form_entry fe true true rs errs tmpl).1 := by
  refine ⟨rfl, ?_, ?_⟩
  · intro e he
    simp only [view_form_entry, if_true, List.mem_append]
    exact Or.inl (List.mem_map_of_mem _ he)
  · simp [view_form_entry]

/-- C2: In `render_done`, if any step's stored data fails
re-validation then `render_revalidation_failure` is returned for the
first such step and the wizard handlers never run (nor is the storage
reset); if every step re-validates, the handlers run exactly once and
the storage is reset exactly once, after `done` returns (the reset is
the last event, following the handler run). -/
theorem render_done_revalidation_gates_handlers
    (slug : String) (steps : List WizardStep) :
    (if steps.all (fun s => s.valid) then
      (render_done slug steps).1
          = steps.map (fun s => WizardEvent.submit_plugin_data s.key)
            ++ [WizardEvent.run_wizard_handlers, WizardEvent.storage_reset]
      ∧ (render_done slug steps).2
          = Response.redirect (form_wizard_entry_submitted_url slug)
    else
      WizardEvent.run_wizard_handlers ∉ (render_done slug steps).1
      ∧ WizardEvent.storage_reset ∉ (render_done slug steps).1
      ∧ (render_done slug steps).2
          = Response.render
              ("revalidation_failure:"
                ++ (first_invalid_key steps).getD "")) := by
  induction steps with
  | nil =>
    simp [render_done, wizard_done]
  | cons s rest ih =>
    by_cases hs : s.valid
    · by_cases hrest : rest.all (fun s => s.valid)
      · have hall : (s :: rest).all (fun s => s.valid) = true := by
          simp [List.all_cons, hs, hrest]
        rw [if_pos hall] at *
        rw [if_pos hrest] at ih
        constructor
        · simp only [render_done, hs, if_true, List.map_cons, List.cons_append]
          rw [ih.1]
        · simp only [render_done, hs, if_true]
          exact ih.2
      · have hall : ¬ ((s :: rest).all (fun s => s.valid) = true) := by
          simp [List.all_cons, hs, hrest]
        rw [if_neg hall]
        rw [if_neg hrest] at ih
        have hfirst : first_invalid_key (s :: rest) = first_invalid_key rest := by
          simp [first_invalid_key, List.find?, hs]
        refine ⟨?_, ?_, ?_⟩
        · simp only [render_done, hs, if_true, List.mem_cons]
          rintro (h | h)
          · exact WizardEvent.noConfusion h
          · exact ih.1 h
        · simp only [render_done, hs, if_true, List.mem_cons]
          rintro (h | h)
          · exact WizardEvent.noConfusion h
          · exact ih.2.1 h
        · simp only [render_done, hs, if_true]
          rw [hfirst]
          exact ih.2.2
    · have hall : ¬ ((s :: rest).all (fun s => s.valid) = true) := by
        simp [List.all_cons, hs]
      rw [if_neg hall]
      have hfirst : first_invalid_key (s :: rest) = some s.key := by
        simp [first_invalid_key, List.find?, hs]
      refine ⟨?_, ?_, ?_⟩
      · simp [render_done, hs]
      · simp [render_done, hs]
      · simp [render_done, hs, hfirst]

/-- Auxiliary: a `foldl max` dominates its seed. -/
theorem seed_le_foldl_max (l : List Int) (a : Int) : a ≤ l.foldl max a := by
  induction l generalizing a with
  | nil => exact le_refl a
  | cons b bs ih =>
    calc a ≤ max a b := le_max_left a b
      _ ≤ bs.foldl max (max a b) := ih (max a b)

/-- Auxiliary: a `foldl max` dominates every list member. -/
theorem mem_le_foldl_max (l : List Int) (a : Int) :
    ∀ x ∈ l, x ≤ l.foldl max a := by
  induction l generalizing a with
  | nil => intro x hx; cases hx
  | cons b bs ih =>
    intro x hx
    rcases List.mem_cons.mp hx with rfl | hx
    · calc x ≤ max a x := le_max_right a x
        _ ≤ bs.foldl max (max a x) := seed_le_foldl_max bs (max a x)
    · exact ih (max a b) x hx

/-- Auxiliary: `max?` of an integer list bounds every member. -/
theorem int_max?_le {l : List Int} {m : Int} (h : l.max? = some m) :
    ∀ x ∈ l, x ≤ m := by
  cases l with
  | nil => simp [List.max?] at h
  | cons b bs =>
    have hm : bs.foldl max b = m := by
      simpa [List.max?] using h
    intro x hx
    rcases List.mem_cons.mp hx with rfl | hx
    · exact hm ▸ seed_le_foldl_max bs x
    · exact hm ▸ mem_le_foldl_max bs b x hx

/-- Auxiliary: `max?` is `none` only on the empty list. -/
theorem int_max?_eq_none {l : List Int} (h : l.max? = none) : l = [] := by
  cases l with
  | nil => rfl
  | cons b bs => simp [List.max?] at h

/-- Every element sibling's position is strictly below the next
assigned position. -/
theorem element_sibling_position_lt (db : DB) (fid : Nat) :
    ∀ e ∈ element_siblings db fid, e.position < next_element_position db fid := by
  intro e he
  cases hmax : ((element_siblings db fid).map (fun e => e.position)).max? with
  | none =>
    have := int_max?_eq_none hmax
    rw [List.map_eq_nil_iff] at this
    rw [this] at he
    cases he
  | some m =>
    have hle : e.position ≤ m :=
      int_max?_le hmax e.position (List.mem_map_of_mem _ he)
    have hnext : next_element_position db fid = m + 1 := by
      unfold next_element_position
      rw [hmax]
    rw [hnext]
    omega

/-- Every wizard-form sibling's (non-null) position is strictly below
the next assigned position. -/
theorem wizard_sibling_position_lt (db : DB) (wid : Nat) :
    ∀ e ∈ wizard_form_siblings db wid, ∀ q, e.position = some q →
      q < next_wizard_form_position db wid := by
  intro e he q hq
  have hmem : q ∈ (wizard_form_siblings db wid).filterMap (fun e => e.position) :=
    List.mem_filterMap.mpr ⟨e, he, hq⟩
  cases hmax : ((wizard_form_siblings db wid).filterMap (fun e => e.position)).max? with
  | none =>
    have := int_max?_eq_none hmax
    rw [this] at hmem
    cases hmem
  | some m =>
    have hle : q ≤ m := int_max?_le hmax q hmem
    have hnext : next_wizard_form_position db wid = m + 1 := by
      unfold next_wizard_form_position
      rw [hmax]
    rw [hnext]
    omega

/-- The aggregate in `add_form_wizard_form_entry` is unaffected by the
freshly created null-position row. -/
theorem next_wizard_form_position_append_null (db : DB) (wid : Nat)
    (c : FormWizardFormEntry) (hc : c.position = none) :
    next_wizard_form_position
        {db with form_wizard_form_entries := db.form_wizard_form_entries ++ [c]}
        wid
      = next_wizard_form_position db wid := by
  unfold next_wizard_form_position wizard_form_siblings
  simp only [List.filter_append, List.filterMap_append]
  have hnil : (List.filter (fun e => e.form_wizard_entry == wid) [c]).filterMap
      (fun e => e.position) = [] := by
    cases hb : (c.form_wizard_entry == wid) with
    | true => simp [List.filter_cons, hb, hc]
    | false => simp [List.filter_cons, hb]
  rw [hnil, List.append_nil]

/-- C8: When `add_form_element_entry` saves a new entry (POST with a
valid plugin form, or a non-configurable plugin), the entry is
appended with position `next_element_position`, which is `1` when the
parent has no sibling element entries and one plus the maximum sibling
position otherwise — in particular strictly above every sibling
position, so positions stay unique and increasing per parent under
sequential use.  Likewise `add_form_wizard_form_entry` assigns
`next_wizard_form_position` to the created row. -/
theorem add_entry_position_is_max_plus_one
    (db : DB) (reg : List ElementPlugin) (allowed : List String)
    (u : Nat) (pd : String) (nid fid wid fid2 nid2 : Nat) (uid : String)
    (fe : FormEntry) (plugin : ElementPlugin)
    (hfe : find_form_entry db fid = some fe)
    (hallow : uid ∈ allowed)
    (hreg : element_registry_get reg uid = some plugin)
    (hw : (db.form_wizard_entries.find?
        (fun w => w.id == wid && w.user == u)).isSome = true)
    (hf2 : (db.form_entries.find?
        (fun x => x.id == fid2 && x.user == u)).isSome = true)
    (hpair : ¬ ∃ e ∈ db.form_wizard_form_entries,
        e.form_wizard_entry = wid ∧ e.form_entry = fid2) :
    (add_form_element_entry db reg allowed u true true pd nid fid uid).1.form_element_entries
      = db.form_element_entries
        ++ [{ id := nid, form_entry := fid, plugin_uid := uid,
              plugin_data := (if plugin.has_form then pd else ""),
              position := next_element_position db fid, user := u }]
    ∧ (element_siblings db fid = [] → next_element_position db fid = 1)
    ∧ (∀ m, ((element_siblings db fid).map (fun e => e.position)).max? = some m →
        next_element_position db fid = m + 1)
    ∧ (∀ e ∈ element_siblings db fid, e.position < next_element_position db fid)
    ∧ (add_form_wizard_form_entry db u wid fid2 nid2).1.form_wizard_form_entries
      = db.form_wizard_form_entries
        ++ [{ id := nid2, form_wizard_entry := wid, form_entry := fid2,
              position := some (next_wizard_form_position db wid) }]
    ∧ (wizard_form_siblings db wid = [] → next_wizard_form_position db wid = 1)
    ∧ (∀ e ∈ wizard_form_siblings db wid, ∀ q, e.position = some q →
        q < next_wizard_form_position db wid) := by
  obtain ⟨w, hw⟩ := Option.isSome_iff_exists.mp hw
  obtain ⟨f2, hf2⟩ := Option.isSome_iff_exists.mp hf2
  refine ⟨?_, ?_, ?_, element_sibling_position_lt db fid, ?_, ?_,
    wizard_sibling_position_lt db wid⟩
  · simp [add_form_element_entry, hfe, hreg, hallow]
  · intro h
    unfold next_element_position
    rw [h]
    rfl
  · intro m hm
    unfold next_element_position
    rw [hm]
  · have hstep := next_wizard_form_position_append_null db wid
      { id := nid2, form_wizard_entry := wid, form_entry := fid2,
        position := none } rfl
    simp [add_form_wizard_form_entry, hw, hf2, hpair, hstep]
  · intro h
    unfold next_wizard_form_position
    rw [h]
    rfl

/-- Witness for C8 at a concrete store: the saved element entry gets
position `4 = 3 + 1`, and the wizard form entry gets position `1`. -/
theorem add_entry_position_is_max_plus_one_witness :
    find_form_entry position_db 1 = some contact_entry
    ∧ (add_form_element_entry position_db [text_plugin] ["text"] 1 true true "d" 6 1 "text").1.form_element_entries
      = [contact_element,
         { id := 6, form_entry := 1, plugin_uid := "text",
           plugin_data := "", position := 4, user := 1 }]
    ∧ (add_form_wizard_form_entry position_db 1 2 1 7).1.form_wizard_form_entries
      = [{ id := 7, form_wizard_entry := 2, form_entry := 1, position := some 1 }] := by
  have h := add_entry_position_is_max_plus_one position_db [text_plugin] ["text"]
    1 "d" 6 1 2 1 7 "text" contact_entry text_plugin
    (by decide) (by decide) (by decide) (by decide) (by decide) (by decide)
  refine ⟨by decide, ?_, ?_⟩
  · have hpos : next_element_position position_db 1 = 4 := by decide
    rw [h.1, hpos]
    decide
  · have hpos : next_wizard_form_position position_db 2 = 1 := by decide
    rw [h.2.2.2.2.1, hpos]
    decide

/-- C3: A handler plugin with `allow_multiple = false` that already
has an entry with its uid on the target form entry (resp. form wizard
entry) is rejected by `add_form_handler_entry`
(resp. `add_form_wizard_handler_entry`) with a not-found error before
any object is saved: the store is returned unchanged. -/
theorem add_handler_entry_allow_multiple_rejected
    (db : DB) (reg regw : List HandlerPlugin) (allowed allowedw : List String)
    (u : Nat) (ip fv : Bool) (pd : String) (nid fid wid : Nat)
    (uid uidw : String) (fe : FormEntry) (p : HandlerPlugin)
    (w : FormWizardEntry) (pw : HandlerPlugin)
    (hfe : find_form_entry db fid = some fe)
    (hallow : uid ∈ allowed)
    (hreg : handler_registry_get reg uid = some p)
    (hmulti : p.allow_multiple = false)
    (hused : 0 < (db.form_handler_entries.filter
        (fun e => e.form_entry == fid && e.plugin_uid == p.uid)).length)
    (hw : db.form_wizard_entries.find? (fun x => x.id == wid) = some w)
    (hallalloww : uidw ∈ allowedw)
    (hregw : handler_registry_get regw uidw = some pw)
    (hmultiw : pw.allow_multiple = false)
    (husedw : 0 < (db.form_wizard_handler_entries.filter
        (fun e => e.form_wizard_entry == wid && e.plugin_uid == pw.uid)).length) :
    add_form_handler_entry db reg allowed u ip fv pd nid fid uid
      = (db, Response.http404
          ("The " ++ p.name ++ " plugin can be used only once in a form."))
    ∧ add_form_wizard_handler_entry db regw allowedw u ip fv pd nid wid uidw
      = (db, Response.http404
          ("The " ++ pw.name ++ " plugin can be used only once in a form.")) := by
  constructor
  · simp only [add_form_handler_entry, hfe]
    rw [if_pos hallow, hreg]
    simp only []
    rw [if_pos ⟨hmulti, hused⟩]
  · simp only [add_form_wizard_handler_entry, hw]
    rw [if_pos hallalloww, hregw]
    simp only []
    rw [if_pos ⟨hmultiw, husedw⟩]

/-- Witness for C3: a second `db_save` attachment on form entry 1 and
on wizard entry 2 is rejected with a not-found error, the store
unchanged. -/
theorem add_handler_entry_allow_multiple_rejected_witness :
    unique_mail_plugin.allow_multiple = false
    ∧ 0 < (allow_multiple_db.form_handler_entries.filter
        (fun e => e.form_entry == 1 && e.plugin_uid == unique_mail_plugin.uid)).length
    ∧ add_form_handler_entry allow_multiple_db [unique_mail_plugin] ["db_save"]
        1 true true "x" 13 1 "db_save"
      = (allow_multiple_db, Response.http404
          "The DB save plugin can be used only once in a form.") := by
  refine ⟨by decide, by decide, ?_⟩
  have h := add_handler_entry_allow_multiple_rejected allow_multiple_db
    [unique_mail_plugin] [unique_mail_plugin] ["db_save"] ["db_save"]
    1 true true "x" 13 1 2 "db_save" "db_save" contact_entry
    unique_mail_plugin contact_wizard unique_mail_plugin
    (by decide) (by decide) (by decide) (by decide) (by decide)
    (by decide) (by decide) (by decide) (by decide) (by decide)
  exact h.1

/-- C7, counterexample: user 2 does not own form entry 1, yet
`edit_form_handler_entry` (which fetches the entry by pk alone, with
no `form_entry__user` filter) lets user 2 replace the plugin data of
handler entry 10 and returns a redirect, not a not-found error — the
stored entry is modified by a non-owner. -/
theorem edit_form_handler_entry_nonowner_modifies :
    (2 : Nat) ≠ 1
    ∧ contact_entry.user = 1
    ∧ (edit_form_handler_entry nonowner_db [mail_plugin] 2 10 true true "new").1.form_handler_entries
      = [{ id := 10, form_entry := 1, plugin_uid := "mail",
           plugin_data := "new", user := 1 }]
    ∧ (edit_form_handler_entry nonowner_db [mail_plugin] 2 10 true true "new").2
      = Response.redirect (edit_form_entry_url 1)
    ∧ (edit_form_handler_entry nonowner_db [mail_plugin] 2 10 true true "new").1
      ≠ nonowner_db := by
  refine ⟨by decide, by decide, by decide, ?_, by decide⟩
  show (edit_form_handler_entry nonowner_db [mail_plugin] 2 10 true true "new").2
      = Response.redirect ("fobi.edit_form_entry/" ++ toString 1)
  decide

/-- C7 as amended: the views that do filter the fetch by
`form_entry__user__pk=request.user.pk` — `edit_form_element_entry` and
the delete views — reject a requesting user who does not own the
parent form entry with a not-found error and leave the store
unchanged. -/
theorem owner_filtered_views_reject_nonowner
    (db : DB) (reg : List ElementPlugin) (u : Nat) (eid : Nat)
    (ip fv : Bool) (pd : String)
    (hel : ∀ e ∈ db.form_element_entries, e.id = eid →
        element_owner_matches db e u = false)
    (hha : ∀ e ∈ db.form_handler_entries, e.id = eid →
        handler_owner_matches db e u = false) :
    edit_form_element_entry db reg u eid ip fv pd
      = (db, Response.http404 "Form element entry not found.")
    ∧ delete_form_element_entry db u eid
      = (db, Response.http404 "Form element entry not found.")
    ∧ delete_form_handler_entry db u eid
      = (db, Response.http404 "Form handler entry not found.") := by
  have h1 : db.form_element_entries.find?
      (fun e => e.id == eid && element_owner_matches db e u) = none := by
    rw [List.find?_eq_none]
    intro e he
    by_cases hid : e.id = eid
    · simp [hid, hel e he hid]
    · simp [hid]
  have h2 : db.form_handler_entries.find?
      (fun e => e.id == eid && handler_owner_matches db e u) = none := by
    rw [List.find?_eq_none]
    intro e he
    by_cases hid : e.id = eid
    · simp [hid, hha e he hid]
    · simp [hid]
  refine ⟨?_, ?_, ?_⟩
  · simp only [edit_form_element_entry, h1]
  · simp only [delete_form_element_entry, h1]
  · simp only [delete_form_handler_entry, h2]

/-- Witness for the amended C7: user 2 owns nothing in `nonowner_db`,
so the owner-filtered delete of handler entry 10 responds not-found
and the store is unchanged. -/
theorem owner_filtered_views_reject_nonowner_witness :
    delete_form_handler_entry nonowner_db 2 10
      = (nonowner_db, Response.http404 "Form handler entry not found.") :=
  (owner_filtered_views_reject_nonowner nonowner_db [] 2 10 true true ""
    (by decide) (by decide)).2.2

/-- Auxiliary: the element import loop saves exactly the entries with
a registered plugin uid and warns exactly about the rest. -/
theorem import_form_elements_eq (reg : List String) (fid : Nat)
    (l : List ElementData) :
    import_form_elements reg fid l
      = ((l.filter (fun ed => element_data_registered reg ed)).map
            (element_entry_of_data fid),
         (l.filter (fun ed => !element_data_registered reg ed)).map warn_of) := by
  induction l with
  | nil => rfl
  | cons ed rest ih =>
    cases hreg : element_data_registered reg ed with
    | true => simp [import_form_elements, ih, hreg, List.filter_cons]
    | false => simp [import_form_elements, ih, hreg, List.filter_cons]

/-- Auxiliary: with every handler uid registered the handler loop
never reaches its broken warning branch and saves every handler. -/
theorem import_form_handlers_all_registered (reg : List String) (fid : Nat)
    (l : List HandlerData)
    (h : ∀ hd ∈ l, handler_data_registered reg hd = true) :
    ∀ last, import_form_handlers reg fid l last
      = Except.ok (l.map (handler_entry_of_data fid), []) := by
  induction l with
  | nil => intro last; rfl
  | cons hd rest ih =>
    intro last
    have hhd : handler_data_registered reg hd = true :=
      h hd (List.mem_cons_self hd rest)
    have hrest : ∀ x ∈ rest, handler_data_registered reg x = true :=
      fun x hx => h x (List.mem_cons_of_mem hd hx)
    simp only [import_form_handlers, hhd, if_true,
      ih hrest (some (handler_entry_of_data fid hd)), List.map_cons]

/-- Auxiliary: full evaluation of the import's POST branch when every
handler uid is registered. -/
theorem import_ok_characterization
    (reg_e reg_h : List String) (user : Nat) (ts : String) (nid : Nat)
    (doc : ImportDoc)
    (hhand : ∀ hd ∈ doc.form_handlers, handler_data_registered reg_h hd = true) :
    import_form_entry_post_valid reg_e reg_h user ts nid doc
      = Except.ok
          { entry := imported_entry doc user nid ts,
            elements := (doc.form_elements.filter
                (fun ed => element_data_registered reg_e ed)).map
                  (element_entry_of_data nid),
            handlers := doc.form_handlers.map (handler_entry_of_data nid),
            messages := (doc.form_elements.filter
                (fun ed => !element_data_registered reg_e ed)).map warn_of
              ++ [Message.info "The form was imported successfully."],
            response := Response.redirect (edit_form_entry_url nid) } := by
  unfold import_form_entry_post_valid
  rw [import_form_handlers_all_registered reg_h nid doc.form_handlers hhand none]
  simp [import_form_elements_eq]

/-- C4 (code bug): the element loop of `import_form_entry` skips an
unregistered plugin uid with a warning and completes with a redirect,
but the handler loop, at the same failing input, raises `NameError`
(`form_handler` is unbound in its warning branch) instead of warning —
one unregistered handler uid makes the whole import fail, contrary to
the spec and to the view's own explanatory comment. -/
theorem import_unregistered_handler_uid_crashes :
    import_form_entry_post_valid [] [] 3 "T" 1 broken_handler_doc
      = Except.error (PyError.nameError "form_handler")
    ∧ import_form_entry_post_valid [] [] 3 "T" 1 broken_element_doc
      = Except.ok
          { entry := broken_element_doc_entry, elements := [], handlers := [],
            messages := [missing_plugin_warning "ghost",
              Message.info "The form was imported successfully."],
            response := Response.redirect (edit_form_entry_url 1) } := by
  constructor
  · rfl
  · show _ = Except.ok
      { entry := broken_element_doc_entry, elements := [], handlers := [],
        messages := [missing_plugin_warning "ghost",
          Message.info "The form was imported successfully."],
        response := Response.redirect ("fobi.edit_form_entry/" ++ toString 1) }
    rfl

/-- Auxiliary: splitting a list's length by a predicate. -/
theorem length_filter_not_add (p : α → Bool) (l : List α) :
    (l.filter p).length + (l.filter (fun x => !p x)).length = l.length := by
  induction l with
  | nil => rfl
  | cons a rest ih =>
    cases hp : p a with
    | true => simp [List.filter_cons, hp, ← ih]; omega
    | false => simp [List.filter_cons, hp, ← ih]; omega

/-- C6: An import document whose `form_handlers` are all registered
and whose `form_elements` all carry a `plugin_uid`, exactly one of
which is unregistered, imports successfully: every element with a
registered uid is saved (in order), the saved entries number one
fewer than the document lists, and the messages are exactly the
missing-plugin warning for the unregistered uid followed by the
success message. -/
theorem import_one_unregistered_element
    (reg_e reg_h : List String) (user : Nat) (ts : String) (nid : Nat)
    (doc : ImportDoc) (uid : String)
    (hhand : ∀ hd ∈ doc.form_handlers, handler_data_registered reg_h hd = true)
    (hone : (doc.form_elements.filter
        (fun ed => !element_data_registered reg_e ed)).map
          (fun ed => ed.plugin_uid) = [some uid]) :
    import_form_entry_post_valid reg_e reg_h user ts nid doc
      = Except.ok
          { entry := imported_entry doc user nid ts,
            elements := (doc.form_elements.filter
                (fun ed => element_data_registered reg_e ed)).map
                  (element_entry_of_data nid),
            handlers := doc.form_handlers.map (handler_entry_of_data nid),
            messages := [missing_plugin_warning uid,
              Message.info "The form was imported successfully."],
            response := Response.redirect (edit_form_entry_url nid) }
    ∧ ((doc.form_elements.filter
        (fun ed => element_data_registered reg_e ed)).map
          (element_entry_of_data nid)).length + 1
      = doc.form_elements.length := by
  have hlen : (doc.form_elements.filter
      (fun ed => !element_data_registered reg_e ed)).length = 1 := by
    have := congrArg List.length hone
    simpa using this
  have hwarn : (doc.form_elements.filter
      (fun ed => !element_data_registered reg_e ed)).map warn_of
      = [missing_plugin_warning uid] := by
    cases hfil : doc.form_elements.filter
        (fun ed => !element_data_registered reg_e ed) with
    | nil => rw [hfil] at hone; cases hone
    | cons ed rest =>
      rw [hfil] at hone
      cases rest with
      | nil =>
        have hu : ed.plugin_uid = some uid := by
          simpa using hone
        simp [warn_of, hu]
      | cons ed2 rest2 =>
        have hbad := congrArg List.length hone
        simp at hbad
  constructor
  · rw [import_ok_characterization reg_e reg_h user ts nid doc hhand, hwarn]
    rfl
  · have hsplit := length_filter_not_add
      (fun ed => element_data_registered reg_e ed) doc.form_elements
    rw [List.length_map]
    omega

/-- Witness for C6: importing `one_missing_doc` with `text`/`email`
registered saves two of the three listed elements and warns about
`ghost`. -/
theorem import_one_unregistered_element_witness :
    ((one_missing_doc.form_elements.filter
        (fun ed => !element_data_registered ["text", "email"] ed)).map
          (fun ed => ed.plugin_uid) = [some "ghost"])
    ∧ import_form_entry_post_valid ["text", "email"] [] 3 "T" 1 one_missing_doc
      = Except.ok
          { entry := imported_entry one_missing_doc 3 1 "T",
            elements := (one_missing_doc.form_elements.filter
                (fun ed => element_data_registered ["text", "email"] ed)).map
                  (element_entry_of_data 1),
            handlers := [],
            messages := [missing_plugin_warning "ghost",
              Message.info "The form was imported successfully."],
            response := Response.redirect (edit_form_entry_url 1) }
    ∧ ((one_missing_doc.form_elements.filter
        (fun ed => element_data_registered ["text", "email"] ed)).map
          (element_entry_of_data 1)).length + 1
      = one_missing_doc.form_elements.length := by
  have h := import_one_unregistered_element ["text", "email"] [] 3 "T" 1
    one_missing_doc "ghost" (by decide) (by decide)
  exact ⟨by decide, h.1, h.2⟩

/-- C5, counterexample: exporting the public form entry and importing
the document back (same user, same pk) yields an entry that differs
from the original in more than the name — `export_form_entry` writes
`is_public` as literal `False`, so the round trip of a public entry
flips `is_public`. -/
theorem export_import_only_name_differs_counterexample :
    public_entry.is_public = true
    ∧ import_form_entry_post_valid [] [] 3 "T" 7
        (export_form_entry public_entry [] [])
      = Except.ok
          { entry := public_roundtrip_entry, elements := [], handlers := [],
            messages := [Message.info "The form was imported successfully."],
            response := Response.redirect (edit_form_entry_url 7) }
    ∧ public_roundtrip_entry.is_public ≠ public_entry.is_public
    ∧ public_roundtrip_entry
      ≠ { public_entry with name := public_entry.name ++ " (imported on T)" } := by
  refine ⟨rfl, ?_, by decide, by decide⟩
  rfl

/-- C5 as amended: exporting a form entry and importing the document,
with every referenced plugin uid registered, preserves the element
entries' plugin uids, positions and plugin data and the handler
entries' plugin uids and plugin data, in order; the name gains the
import-timestamp suffix, and slug, success page title and message and
action are preserved — but `is_public` and `is_cloneable` come back
`false` (the export writes literal `False` for both), and the entry
belongs to the importing user. -/
theorem export_import_roundtrip_preserves_entries
    (fe : FormEntry) (elems : List FormElementEntry)
    (handlers : List FormHandlerEntry) (user nid : Nat) (ts : String)
    (reg_e reg_h : List String)
    (he : ∀ e ∈ elems, reg_e.contains e.plugin_uid = true)
    (hh : ∀ h ∈ handlers, reg_h.contains h.plugin_uid = true) :
    import_form_entry_post_valid reg_e reg_h user ts nid
        (export_form_entry fe elems handlers)
      = Except.ok
          { entry := { id := nid, name := fe.name ++ " (imported on " ++ ts ++ ")", slug := fe.slug, user := user, is_public := false, is_cloneable := false, success_page_title := fe.success_page_title, success_page_message := fe.success_page_message, action := fe.action },
            elements := elems.map (fun e => { id := 0, form_entry := nid, plugin_uid := e.plugin_uid, plugin_data := e.plugin_data, position := e.position, user := 0 }),
            handlers := handlers.map (fun h => { id := 0, form_entry := nid, plugin_uid := h.plugin_uid, plugin_data := h.plugin_data, user := 0 }),
            messages := [Message.info "The form was imported successfully."],
            response := Response.redirect (edit_form_entry_url nid) } := by
  have hhand : ∀ hd ∈ (export_form_entry fe elems handlers).form_handlers,
      handler_data_registered reg_h hd = true := by
    intro hd hmem
    simp only [export_form_entry] at hmem
    obtain ⟨h0, hh0, rfl⟩ := List.mem_map.mp hmem
    simpa [handler_data_registered, export_handler] using hh h0 hh0
  rw [import_ok_characterization reg_e reg_h user ts nid _ hhand]
  have hfil : (export_form_entry fe elems handlers).form_elements.filter
      (fun ed => element_data_registered reg_e ed) = elems.map export_element := by
    apply List.filter_eq_self.mpr
    intro ed hmem
    simp only [export_form_entry] at hmem
    obtain ⟨e0, he0, rfl⟩ := List.mem_map.mp hmem
    simpa [element_data_registered, export_element] using he e0 he0
  have hfilnot : (export_form_entry fe elems handlers).form_elements.filter
      (fun ed => !element_data_registered reg_e ed) = [] := by
    rw [List.filter_eq_nil_iff]
    intro ed hmem
    simp only [export_form_entry] at hmem
    obtain ⟨e0, he0, rfl⟩ := List.mem_map.mp hmem
    simpa [element_data_registered, export_element] using he e0 he0
  have hentry : imported_entry (export_form_entry fe elems handlers) user nid ts
      = { id := nid, name := fe.name ++ " (imported on " ++ ts ++ ")", slug := fe.slug, user := user, is_public := false, is_cloneable := false, success_page_title := fe.success_page_title, success_page_message := fe.success_page_message, action := fe.action } := by
    rfl
  have helems2 : List.map (element_entry_of_data nid) (List.map export_element elems)
      = elems.map (fun e => { id := 0, form_entry := nid, plugin_uid := e.plugin_uid, plugin_data := e.plugin_data, position := e.position, user := 0 }) := by
    rw [List.map_map]
    exact List.map_congr_left (fun e _ => rfl)
  have hhandlers2 : List.map (handler_entry_of_data nid)
        (export_form_entry fe elems handlers).form_handlers
      = handlers.map (fun h => { id := 0, form_entry := nid, plugin_uid := h.plugin_uid, plugin_data := h.plugin_data, user := 0 }) := by
    show List.map (handler_entry_of_data nid) (handlers.map export_handler) = _
    rw [List.map_map]
    exact List.map_congr_left (fun h _ => rfl)
  rw [hfil, hfilnot, hentry, helems2, hhandlers2]
  rfl

/-- Witness for the amended C5: a two-element, one-handler entry
round-trips with plugin uids, positions and plugin data preserved. -/
theorem export_import_roundtrip_preserves_entries_witness :
    import_form_entry_post_valid ["text", "email"] ["db_store"] 3 "2014-01-01" 2
        (export_form_entry rt_entry [rt_elem1, rt_elem2] [rt_handler])
      = Except.ok
          { entry := { id := 2, name := "Contact (imported on 2014-01-01)", slug := "contact", user := 3, is_public := false, is_cloneable := false, success_page_title := "ok", success_page_message := "done", action := "" },
            elements := [{ id := 0, form_entry := 2, plugin_uid := "text", plugin_data := "n", position := 1, user := 0 }, { id := 0, form_entry := 2, plugin_uid := "email", plugin_data := "e", position := 2, user := 0 }],
            handlers := [{ id := 0, form_entry := 2, plugin_uid := "db_store", plugin_data := "", user := 0 }],
            messages := [Message.info "The form was imported successfully."],
            response := Response.redirect (edit_form_entry_url 2) } :=
  export_import_roundtrip_preserves_entries rt_entry [rt_elem1, rt_elem2]
    [rt_handler] 3 2 "2014-01-01" ["text", "email"] ["db_store"]
    (by decide) (by decide)

/-- Auxiliary: for a whitelisted key, lookup after sanitization sees
exactly what lookup on the raw mapping sees. -/
theorem find?_sanitize (d : List (String × JVal)) (k : String)
    (hk : k ∈ form_data_keys_whitelist) :
    (sanitize_form_data d).find? (fun kv => kv.1 == k)
      = d.find? (fun kv => kv.1 == k) := by
  induction d with
  | nil => rfl
  | cons kv rest ih =>
    by_cases hkey : kv.1 = k
    · unfold sanitize_form_data
      rw [List.filter_cons_of_pos (by simp [hkey]; simpa using hk),
        List.find?_cons_of_pos _ (by simp [hkey]),
        List.find?_cons_of_pos _ (by simp [hkey])]
    · by_cases hw : kv.1 ∈ form_data_keys_whitelist
      · unfold sanitize_form_data at ih ⊢
        rw [List.filter_cons_of_pos (by simpa using hw),
          List.find?_cons_of_neg _ (by simp [hkey]),
          List.find?_cons_of_neg _ (by simp [hkey])]
        exact ih
      · unfold sanitize_form_data at ih ⊢
        rw [List.filter_cons_of_neg (by simpa using hw),
          List.find?_cons_of_neg _ (by simp [hkey])]
        exact ih

/-- C10: Two import documents that agree on the whitelisted top-level
keys and on their element and handler lists import identically (same
timestamp and requesting user assumed): every other top-level key is
discarded before the `FormEntry` is constructed.  Moreover the created
entry's user is always the requesting user, whatever the document
contains. -/
theorem import_discards_non_whitelisted_keys
    (d1 d2 : ImportDoc) (reg_e reg_h : List String) (user nid : Nat)
    (ts : String)
    (hkeys : ∀ k ∈ form_data_keys_whitelist,
        d1.form_data.find? (fun kv => kv.1 == k)
          = d2.form_data.find? (fun kv => kv.1 == k))
    (helems : d1.form_elements = d2.form_elements)
    (hhands : d1.form_handlers = d2.form_handlers) :
    import_form_entry_post_valid reg_e reg_h user ts nid d1
      = import_form_entry_post_valid reg_e reg_h user ts nid d2
    ∧ (∀ r, import_form_entry_post_valid reg_e reg_h user ts nid d1
        = Except.ok r → r.entry.user = user) := by
  have hlook : ∀ k ∈ form_data_keys_whitelist,
      (sanitize_form_data d1.form_data).find? (fun kv => kv.1 == k)
        = (sanitize_form_data d2.form_data).find? (fun kv => kv.1 == k) := by
    intro k hk
    rw [find?_sanitize d1.form_data k hk, find?_sanitize d2.form_data k hk]
    exact hkeys k hk
  have hstr : ∀ k ∈ form_data_keys_whitelist, ∀ dflt,
      lookup_str (sanitize_form_data d1.form_data) k dflt
        = lookup_str (sanitize_form_data d2.form_data) k dflt := by
    intro k hk dflt
    unfold lookup_str
    rw [hlook k hk]
  have hbool : ∀ k ∈ form_data_keys_whitelist, ∀ dflt,
      lookup_bool (sanitize_form_data d1.form_data) k dflt
        = lookup_bool (sanitize_form_data d2.form_data) k dflt := by
    intro k hk dflt
    unfold lookup_bool
    rw [hlook k hk]
  have hentry : imported_entry d1 user nid ts = imported_entry d2 user nid ts := by
    unfold imported_entry form_entry_from_data
    rw [hstr "name" (by decide) "", hstr "slug" (by decide) "",
      hbool "is_public" (by decide) false, hbool "is_cloneable" (by decide) false,
      hstr "success_page_title" (by decide) "",
      hstr "success_page_message" (by decide) "", hstr "action" (by decide) ""]
  constructor
  · unfold import_form_entry_post_valid
    rw [hentry, helems, hhands]
  · intro r hr
    unfold import_form_entry_post_valid at hr
    cases himp : import_form_handlers reg_h nid d1.form_handlers none with
    | error err => rw [himp] at hr; cases hr
    | ok hres =>
      rw [himp] at hr
      have := (Except.ok.injEq _ _).mp hr
      rw [← this]
      rfl

/-- Witness for C10: the junk key changes nothing about the import. -/
theorem import_discards_non_whitelisted_keys_witness :
    import_form_entry_post_valid ["x"] ["y"] 3 "T" 1 junk_doc
      = import_form_entry_post_valid ["x"] ["y"] 3 "T" 1 clean_doc :=
  (import_discards_non_whitelisted_keys junk_doc clean_doc ["x"] ["y"] 3 1 "T"
    (by decide) rfl rfl).1

/-- C9: For every input that passed the per-field validators,
`SliderInputForm.clean` adds a validation error exactly when
`max_value < min_value` (on `max_value`), `step > max_value -
min_value` (on `step`), `initial > max_value` (on `initial`),
`initial < min_value` (on `min_value`), or a triangle/custom handle
is combined with (labeled) ticks endpoints (on `handle`); in
particular `max_value = min_value`, `step = max_value - min_value`
and `initial` equal to either bound are accepted. -/
theorem slider_clean_iff (d : SliderCleanedData) :
    (("max_value", "`max_value` should be > than `min_value`.")
        ∈ SliderInputForm_clean d ↔ d.max_value < d.min_value)
    ∧ (("step", "`step` should be > than `max_value` - `min_value`.")
        ∈ SliderInputForm_clean d ↔ d.step > d.max_value - d.min_value)
    ∧ (("initial", "`max_value` should be >= than `initial`.")
        ∈ SliderInputForm_clean d ↔ d.initial > d.max_value)
    ∧ (("min_value", "`initial` should be >= than `min_value`.")
        ∈ SliderInputForm_clean d ↔ d.initial < d.min_value)
    ∧ (("handle",
        "You are not allowed to use Triangle or Custom handles with ticks enabled.")
        ∈ SliderInputForm_clean d
      ↔ ((d.handle = SLIDER_HANDLE_TRIANGLE ∨ d.handle = SLIDER_HANDLE_CUSTOM)
        ∧ (d.show_endpoints_as = SLIDER_SHOW_ENDPOINTS_AS_LABELED_TICKS
          ∨ d.show_endpoints_as = SLIDER_SHOW_ENDPOINTS_AS_TICKS)))
    ∧ (SliderInputForm_clean d = []
      ↔ ¬(d.max_value < d.min_value
        ∨ d.step > d.max_value - d.min_value
        ∨ d.initial > d.max_value
        ∨ d.initial < d.min_value
        ∨ ((d.handle = SLIDER_HANDLE_TRIANGLE ∨ d.handle = SLIDER_HANDLE_CUSTOM)
          ∧ (d.show_endpoints_as = SLIDER_SHOW_ENDPOINTS_AS_LABELED_TICKS
            ∨ d.show_endpoints_as = SLIDER_SHOW_ENDPOINTS_AS_TICKS)))) := by
  unfold SliderInputForm_clean
  split_ifs <;> simp_all

end Fobi
